import Mathlib

/-!
Shallow embedding of `src/lib/commands/network.js` from appium-android-driver.

The module under verification is a thin orchestration layer over an external
device-bridge client (`adb`).  We embed every command as a pure function from
the device state (and the command's arguments) to the sequence of device-bridge
calls it issues, its returned value, and the device state left behind.  The
device bridge itself is modelled as a black box that answers queries from the
current `DeviceState` and applies writes to it, which matches how the source
treats it.  Log statements are not modelled; thrown JavaScript errors are
modelled with `Except`.

JavaScript-specific behaviour that the source relies on is modelled explicitly
and called out with comments at its use sites:
* `undefined` is modelled as `Option.none`;
* strict (in)equality against `undefined` (`currentState.wifi !== Boolean(wifi)`)
  is equality on `Option Bool`;
* bluebird's `B.all` resolves non-thenable array members (such as a plain
  function that was pushed without being invoked) as-is, without calling them;
* `~MASK & x` uses the 32-bit two's-complement pattern of `~MASK`;
* the code consults `adb.getApiLevel()` only through the comparison `< 30`,
  so the device model carries the boolean outcome of that comparison.
-/

namespace NetworkCommands

/-- `AIRPLANE_MODE_MASK` constant of the source. -/
def AIRPLANE_MODE_MASK : Nat := 0b001

/-- `WIFI_MASK` constant of the source. -/
def WIFI_MASK : Nat := 0b010

/-- `DATA_MASK` constant of the source. -/
def DATA_MASK : Nat := 0b100

/-- `GEO_EPSILON = Number.MIN_VALUE`: the smallest positive representable
binary64 floating-point value, which is exactly `2 ^ (-1074)`.  We model
JavaScript numbers that actually occur here as exact rationals. -/
def GEO_EPSILON : ℚ := 1 / 2 ^ 1074

/-- `WIFI_KEY_NAME` constant of the source. -/
def WIFI_KEY_NAME : String := "wifi"

/-- `DATA_KEY_NAME` constant of the source. -/
def DATA_KEY_NAME : String := "data"

/-- `AIRPLANE_MODE_KEY_NAME` constant of the source. -/
def AIRPLANE_MODE_KEY_NAME : String := "airplaneMode"

/-- The live connectivity state of the device under test, as observable and
writable through the device bridge.  `apiLt30` is the boolean outcome of the
comparison `adb.getApiLevel() < 30`, the only way the source ever consumes the
API level. -/
structure DeviceState where
  airplaneMode : Bool
  wifiOn : Bool
  dataOn : Bool
  apiLt30 : Bool

deriving instance DecidableEq for DeviceState

/-- One call issued to the device bridge (or, for the last two constructors,
to the bootstrap restart machinery from inside `wrapBootstrapDisconnect`). -/
inductive Call where
  | isAirplaneModeOn
  | isWifiOn
  | isDataOn
  | getApiLevel
  | setAirplaneMode (value : Bool)
  | broadcastAirplaneMode (value : Bool)
  | setWifiState (value : Bool)
  | setDataState (value : Bool)
  | adbRestart
  | bootstrapStart

deriving instance DecidableEq for Call

/-- Whether a device-bridge call is one of the state-changing writes named by
the specification: `setAirplaneMode`, `broadcastAirplaneMode`, `setWifiState`,
`setDataState`. -/
def isStateWrite : Call → Bool
  | Call.setAirplaneMode _ => true
  | Call.broadcastAirplaneMode _ => true
  | Call.setWifiState _ => true
  | Call.setDataState _ => true
  | _ => false

/-- The 32-bit two's-complement bit pattern of the JavaScript expression `~n`,
for a small non-negative `n`, read as an unsigned number.  For the values that
occur here (3-bit connectivity masks) `NOT32 m &&& x` agrees with the
JavaScript expression `~m & x`. -/
def NOT32 (n : Nat) : Nat := 2 ^ 32 - 1 - n % 2 ^ 32

/-- Errors thrown by the embedded commands. -/
inductive JsError where
  | typeError
  | invalidArgument

deriving instance DecidableEq for JsError

/-- Success-path trace of `wrapBootstrapDisconnect`: when a bootstrap handle is
attached, running the wrapped action is followed by `adb.restart()` and
`bootstrap.start(...)`; without a bootstrap only the action runs.  (The
failure/flag behaviour of the wrapper is modelled separately below for the
wrapper's own claim.) -/
def wrapTrace (hasBootstrap : Bool) (inner : List Call) : List Call :=
  if hasBootstrap then inner ++ [Call.adbRestart, Call.bootstrapStart] else inner

/-- `getNetworkConnection`: reads airplane mode; when it is on, returns the
airplane mask without querying Wi-Fi or data; otherwise additionally queries
Wi-Fi then data and ORs their mask bits in.  Returns the list of device-bridge
reads issued and the resulting bitmask. -/
def getNetworkConnection (s : DeviceState) : List Call × Nat :=
  if s.airplaneMode then
    ([Call.isAirplaneModeOn], AIRPLANE_MODE_MASK)
  else
    ([Call.isAirplaneModeOn, Call.isWifiOn, Call.isDataOn],
      (if s.wifiOn then WIFI_MASK else 0) ||| (if s.dataOn then DATA_MASK else 0))

/-- Body of `setNetworkConnection` after its first three lines have decoded
the input bitmask into the three booleans `a` (airplane), `w` (wifi), `d`
(data).  Mirrors the source line by line: read the current bitmask; apply the
airplane-mode transition first (each half in its own disconnect-safe wrapper,
with the legacy broadcast only when `getApiLevel() < 30`); return early with a
recomputed mask when neither Wi-Fi nor data needs to change; otherwise toggle
Wi-Fi and data inside one disconnect-safe wrapper, with data changes suppressed
while airplane mode is requested on; finally re-read the connection.  Returns
the issued calls, the returned bitmask, and the final device state. -/
def setNetworkConnectionCore (hasBootstrap : Bool) (a w d : Bool) (s0 : DeviceState) :
    List Call × Nat × DeviceState :=
  let read0 := getNetworkConnection s0
  let currentState := read0.2
  let isAirplaneModeEnabled := currentState &&& AIRPLANE_MODE_MASK != 0
  let isWiFiEnabled := currentState &&& WIFI_MASK != 0
  let isDataEnabled := currentState &&& DATA_MASK != 0
  let airplaneStep :=
    if a != isAirplaneModeEnabled then
      (wrapTrace hasBootstrap [Call.setAirplaneMode a] ++
        wrapTrace hasBootstrap
          (Call.getApiLevel ::
            (if s0.apiLt30 then [Call.broadcastAirplaneMode a] else [])),
       { s0 with airplaneMode := a })
    else ([], s0)
  let airplaneCalls := airplaneStep.1
  let s1 := airplaneStep.2
  if w == isWiFiEnabled && d == isDataEnabled then
    (read0.1 ++ airplaneCalls ++ [Call.isAirplaneModeOn],
     if s1.airplaneMode then AIRPLANE_MODE_MASK ||| currentState
     else NOT32 AIRPLANE_MODE_MASK &&& currentState,
     s1)
  else
    let wifiStep :=
      if w != isWiFiEnabled then
        ([Call.setWifiState w], { s1 with wifiOn := w })
      else ([], s1)
    let s2 := wifiStep.2
    let dataStep :=
      if a then ([], s2)
      else if d == isDataEnabled then ([], s2)
      else ([Call.setDataState d], { s2 with dataOn := d })
    let s3 := dataStep.2
    let readF := getNetworkConnection s3
    (read0.1 ++ airplaneCalls ++ wrapTrace hasBootstrap (wifiStep.1 ++ dataStep.1) ++ readF.1,
     readF.2, s3)

/-- `setNetworkConnection(type)`: decodes the bitmask exactly as the source
does (`type & MASK !== 0` for each of the three masks) and runs the body. -/
def setNetworkConnection (hasBootstrap : Bool) (type : Nat) (s0 : DeviceState) :
    List Call × Nat × DeviceState :=
  setNetworkConnectionCore hasBootstrap
    (type &&& AIRPLANE_MODE_MASK != 0)
    (type &&& WIFI_MASK != 0)
    (type &&& DATA_MASK != 0)
    s0

/-- The `services` argument accepted by `mobileGetConnectivity`: absent
(defaults to all three service names), a single string (wrapped into a
one-element array), or an array of strings. -/
inductive ServicesArg where
  | unset
  | single (name : String)
  | list (names : List String)

/-- Normalisation of the `services` argument performed at the top of
`mobileGetConnectivity`. -/
def normalizeServices : ServicesArg → List String
  | ServicesArg.unset => [WIFI_KEY_NAME, DATA_KEY_NAME, AIRPLANE_MODE_KEY_NAME]
  | ServicesArg.single name => [name]
  | ServicesArg.list names => names

/-- The `statePromises` object literal of `mobileGetConnectivity`, as the map
from property name to the settled value of the stored promise (`none` models
the JavaScript `undefined`, the outer `Option` models presence of the
property).  NOTE the conditions mirror the source exactly: a service that IS
listed in `services` resolves to `undefined`, and a service that is NOT listed
triggers the corresponding adb query — the two ternary arms are inverted
relative to the documented intent of the function. -/
def statePromisesMap (services : List String) (s : DeviceState) (k : String) :
    Option (Option Bool) :=
  if k = WIFI_KEY_NAME then
    some (if services.contains WIFI_KEY_NAME then none else some s.wifiOn)
  else if k = DATA_KEY_NAME then
    some (if services.contains DATA_KEY_NAME then none else some s.dataOn)
  else if k = AIRPLANE_MODE_KEY_NAME then
    some (if services.contains AIRPLANE_MODE_KEY_NAME then none else some s.airplaneMode)
  else
    none

/-- One step of the final `services.map((k) => [k, statePromises[k].value()])`:
looking up a key that is absent from the `statePromises` object yields
`undefined`, and calling `.value()` on `undefined` throws a TypeError. -/
def readPromiseValue (services : List String) (s : DeviceState) (k : String) :
    Except JsError (String × Option Bool) :=
  match statePromisesMap services s k with
  | some v => Except.ok (k, v)
  | none => Except.error JsError.typeError

/-- The adb reads issued while the `statePromises` object literal is built
(property initialisers are evaluated in declaration order: wifi, data,
airplaneMode).  Because of the inverted ternaries, a query is issued exactly
for the services NOT contained in `services`. -/
def connectivityReads (services : List String) : List Call :=
  (if services.contains WIFI_KEY_NAME then [] else [Call.isWifiOn]) ++
  (if services.contains DATA_KEY_NAME then [] else [Call.isDataOn]) ++
  (if services.contains AIRPLANE_MODE_KEY_NAME then [] else [Call.isAirplaneModeOn])

/-- The `services.map((k) => [k, statePromises[k].value()])` loop: reads the
settled value for each requested name in order, propagating the TypeError
thrown at the first name that has no entry in `statePromises` (the `.map`
callback throws synchronously, so later names are not processed). -/
def collectConnectivityPairs (services : List String) (s : DeviceState) :
    List String → Except JsError (List (String × Option Bool))
  | [] => Except.ok []
  | k :: rest =>
    match readPromiseValue services s k with
    | Except.error e => Except.error e
    | Except.ok p =>
      match collectConnectivityPairs services s rest with
      | Except.error e => Except.error e
      | Except.ok ps => Except.ok (p :: ps)

/-- `mobileGetConnectivity`: normalises the `services` argument, builds
`statePromises`, awaits them all, and maps every requested service name to the
settled value of its promise (`_.fromPairs` of the resulting pairs — on the
duplicate-free lists considered here this is the association list itself).
Returns the adb reads issued and either the name-to-value pairs or the thrown
error. -/
def mobileGetConnectivity (arg : ServicesArg) (s : DeviceState) :
    List Call × Except JsError (List (String × Option Bool)) :=
  let services := normalizeServices arg
  (connectivityReads services, collectConnectivityPairs services s services)

/-- The `opts` argument of `mobileSetConnectivity`; `none` models an absent
property, and present values are already coerced to booleans (the source
compares against `Boolean(value)`). -/
structure SetConnectivityOptions where
  wifi : Option Bool
  data : Option Bool
  airplaneMode : Option Bool

deriving instance DecidableEq for SetConnectivityOptions

/-- JavaScript property read `obj.k` on the object returned by
`mobileGetConnectivity`: an absent key and a key stored with value `undefined`
both read as `undefined`. -/
def jsGet (m : List (String × Option Bool)) (k : String) : Option Bool :=
  (m.lookup k).join

/-- One element pushed onto the `setters` array of `mobileSetConnectivity`:
either an already-started promise (the adb call fires when the element is
created, e.g. `this.adb.setWifiState(...)`), or a plain async function pushed
WITHOUT being invoked (the airplane-mode entry). -/
inductive Setter where
  | started (calls : List Call)
  | thunk (body : List Call)

/-- The calls that actually execute for a `setters` array:
calls inside `started` elements have already fired, and `B.all` resolves a
plain function as an ordinary non-thenable value without ever invoking it, so
a `thunk` body never runs. -/
def runSetters : List Setter → List Call
  | [] => []
  | Setter.started cs :: rest => cs ++ runSetters rest
  | Setter.thunk _ :: rest => runSetters rest

/-- The source guards the airplane-mode broadcast with
`this.adb.getApiLevel() < 30` WITHOUT awaiting the promise; comparing a
pending Promise object with a number coerces the promise to NaN, so the
comparison is always false. -/
def unawaitedApiLevelLt30 : Bool := false

/-- Applying an executed write to the device state. -/
def applyWrite (s : DeviceState) : Call → DeviceState
  | Call.setWifiState v => { s with wifiOn := v }
  | Call.setDataState v => { s with dataOn := v }
  | Call.setAirplaneMode v => { s with airplaneMode := v }
  | _ => s

/-- Folding a list of executed writes over the device state. -/
def applyWrites (s : DeviceState) (cs : List Call) : DeviceState :=
  cs.foldl applyWrite s

/-- `mobileSetConnectivity(opts)`: throws invalid-argument when none of the
three options is present; otherwise reads the current state via
`mobileGetConnectivity` restricted to the provided services, pushes a setter
for every provided service whose read-back value differs (strict `!==`) from
the desired boolean, and awaits `B.all(setters)`.  Returns the issued adb
calls (reads first, then the writes that actually executed) and the resulting
device state. -/
def mobileSetConnectivity (opts : SetConnectivityOptions) (s : DeviceState) :
    Except JsError (List Call × DeviceState) :=
  if opts.wifi = none ∧ opts.data = none ∧ opts.airplaneMode = none then
    Except.error JsError.invalidArgument
  else
    let requested : List String :=
      (if opts.wifi = none then [] else [WIFI_KEY_NAME]) ++
      (if opts.data = none then [] else [DATA_KEY_NAME]) ++
      (if opts.airplaneMode = none then [] else [AIRPLANE_MODE_KEY_NAME])
    match mobileGetConnectivity (ServicesArg.list requested) s with
    | (_, Except.error e) => Except.error e
    | (reads, Except.ok currentState) =>
      let setters : List Setter :=
        (match opts.wifi with
         | some w =>
            if jsGet currentState WIFI_KEY_NAME ≠ some w then
              [Setter.started [Call.setWifiState w]]
            else []
         | none => []) ++
        (match opts.data with
         | some d =>
            if jsGet currentState DATA_KEY_NAME ≠ some d then
              [Setter.started [Call.setDataState d]]
            else []
         | none => []) ++
        (match opts.airplaneMode with
         | some am =>
            if jsGet currentState AIRPLANE_MODE_KEY_NAME ≠ some am then
              [Setter.thunk
                (Call.setAirplaneMode am ::
                  (if unawaitedApiLevelLt30 then [Call.broadcastAirplaneMode am] else []))]
            else []
         | none => [])
      let executed := runSetters setters
      Except.ok (reads ++ executed, applyWrites s executed)

/-- The three coordinates delivered by `adb.getGeoLocation()`, each already
put through `parseFloat`: `none` models a value that fails to parse (NaN),
`some q` a value that parses as the number `q`. -/
structure RawGeoLocation where
  latitude : Option ℚ
  longitude : Option ℚ
  altitude : Option ℚ

deriving instance DecidableEq for RawGeoLocation

/-- A geolocation as returned to the caller. -/
structure GeoLocation where
  latitude : ℚ
  longitude : ℚ
  altitude : ℚ

deriving instance DecidableEq for GeoLocation

/-- The JavaScript expression `parseFloat(v) || GEO_EPSILON`: both NaN (a
failed parse) and the number `0` are falsy, so each of them is replaced by the
fallback; every other number passes through unchanged. -/
def jsFloatOr (v : Option ℚ) (fallback : ℚ) : ℚ :=
  match v with
  | none => fallback
  | some q => if q = 0 then fallback else q

/-- `getGeoLocation`: destructures the raw adb coordinates and applies
`parseFloat(value) || GEO_EPSILON` to each of them. -/
def getGeoLocation (raw : RawGeoLocation) : GeoLocation :=
  { latitude := jsFloatOr raw.latitude GEO_EPSILON
    longitude := jsFloatOr raw.longitude GEO_EPSILON
    altitude := jsFloatOr raw.altitude GEO_EPSILON }

/-- `setGeoLocation(location)`: after the adb write succeeds, tries to read
the location back; if the read-back throws, catches the error and returns an
all-`GEO_EPSILON` location instead of failing.  The total return type (no
`Except`) reflects that this command never re-throws a read-back failure.
`readback` is the outcome of the `adb.getGeoLocation()` call performed by the
read-back. -/
def setGeoLocation (location : GeoLocation)
    (readback : Except JsError RawGeoLocation) : GeoLocation :=
  match location, readback with
  | _, Except.ok raw => getGeoLocation raw
  | _, Except.error _ =>
      { latitude := GEO_EPSILON, longitude := GEO_EPSILON, altitude := GEO_EPSILON }

/-- Events observable during one run of `wrapBootstrapDisconnect`:
assignments to `bootstrap.ignoreUnexpectedShutdown`, the wrapped action
starting to run, `adb.restart()`, and `bootstrap.start(...)`. -/
inductive WrapEv where
  | flagAssign (value : Bool)
  | actionRun
  | adbRestart
  | bootstrapStart

deriving instance DecidableEq for WrapEv

/-- Outcome of one run of `wrapBootstrapDisconnect`: the ordered events, the
value of `bootstrap.ignoreUnexpectedShutdown` afterwards (meaningful only when
a bootstrap is attached; without one the field simply keeps its prior value
`flag0`), and the error propagated to the caller, if any. -/
structure WrapOutcome where
  events : List WrapEv
  flagAfter : Bool
  thrown : Option JsError

deriving instance DecidableEq for WrapOutcome

/-- `wrapBootstrapDisconnect(wrapped)`: without a bootstrap handle, just runs
the action and propagates its outcome.  With one, sets the ignore-shutdown
flag, runs the action, then `adb.restart()`, then `bootstrap.start(...)` —
each subsequent step only when the previous one did not throw — and clears the
flag in a `finally` block, re-throwing the first error encountered.
`actionErr`, `restartErr`, `startErr` are the outcomes of the three steps
(`none` = success). -/
def wrapBootstrapDisconnect (hasBootstrap : Bool) (flag0 : Bool)
    (actionErr restartErr startErr : Option JsError) : WrapOutcome :=
  if hasBootstrap then
    let tryEvents : List WrapEv :=
      WrapEv.actionRun ::
        (if actionErr = none then
          WrapEv.adbRestart ::
            (if restartErr = none then [WrapEv.bootstrapStart] else [])
         else [])
    { events := (WrapEv.flagAssign true :: tryEvents) ++ [WrapEv.flagAssign false]
      flagAfter := false
      thrown := actionErr <|> restartErr <|> startErr }
  else
    { events := [WrapEv.actionRun], flagAfter := flag0, thrown := actionErr }

/-!
## Theorems for the claims
-/

/-- C6: for every call to `getNetworkConnection`, if the device reports
airplane mode on, then neither the Wi-Fi state nor the data state is queried
(the only device-bridge read issued is `isAirplaneModeOn`) and the returned
bitmask is exactly `0b001`, with only the airplane bit set. -/
theorem getNetworkConnection_airplane_short_circuit (s : DeviceState)
    (h : s.airplaneMode = true) :
    getNetworkConnection s = ([Call.isAirplaneModeOn], 0b001) := by
  simp [getNetworkConnection, h, AIRPLANE_MODE_MASK]

/-- C6 witness: concrete instance of the short-circuit theorem on a device
with everything switched on. -/
theorem getNetworkConnection_airplane_short_circuit_witness :
    getNetworkConnection ⟨true, true, true, false⟩ = ([Call.isAirplaneModeOn], 0b001) :=
  getNetworkConnection_airplane_short_circuit ⟨true, true, true, false⟩ rfl

/-- C1 (evaluation at the failing input): requesting exactly the service
"wifi" on a device whose Wi-Fi is on queries `isDataOn` and `isAirplaneModeOn`
— but NOT `isWifiOn` — and returns the requested key mapped to `undefined`
rather than to the boolean Wi-Fi state; with no services argument (default:
all three) nothing at all is queried and every key maps to `undefined`.  The
claim (and the function's own JSDoc) requires the opposite: query exactly the
requested services and map each requested key to its boolean state. -/
theorem mobileGetConnectivity_requested_services_eval :
    mobileGetConnectivity (ServicesArg.list [WIFI_KEY_NAME]) ⟨false, true, false, false⟩ =
      ([Call.isDataOn, Call.isAirplaneModeOn], Except.ok [(WIFI_KEY_NAME, none)]) ∧
    mobileGetConnectivity ServicesArg.unset ⟨false, true, false, false⟩ =
      ([], Except.ok
        [(WIFI_KEY_NAME, none), (DATA_KEY_NAME, none), (AIRPLANE_MODE_KEY_NAME, none)]) :=
  ⟨rfl, rfl⟩

/-- C2 (evaluation at the failing input): providing only `wifi: true` on a
device whose Wi-Fi is already on still issues the `setWifiState(true)` write
(the read-back of the current state yields `undefined` for every requested
service, which never strictly equals a boolean); and providing only
`airplaneMode: true` on a device with airplane mode off and API level below 30
issues NO airplane-mode write at all (the airplane setter is pushed as an
uninvoked function that `B.all` never executes).  The claim requires no write
in the first case and a `setAirplaneMode` plus `broadcastAirplaneMode` write
in the second. -/
theorem mobileSetConnectivity_writes_eval :
    mobileSetConnectivity ⟨some true, none, none⟩ ⟨false, true, false, false⟩ =
      Except.ok ([Call.isDataOn, Call.isAirplaneModeOn, Call.setWifiState true],
        ⟨false, true, false, false⟩) ∧
    mobileSetConnectivity ⟨none, none, some true⟩ ⟨false, false, true, true⟩ =
      Except.ok ([Call.isWifiOn, Call.isDataOn], ⟨false, false, true, true⟩) :=
  ⟨rfl, rfl⟩

/-- C3 counterexample: `setNetworkConnection(0b011)` on a device in state
`0b100` (data on, Wi-Fi off, airplane off) does NOT leave airplane mode
untouched and does NOT return `0b011`: since bit 0 of `0b011` is the airplane
bit, the call issues `setAirplaneMode(true)`, suppresses the data-state write,
and returns `0b001`. -/
theorem setNetworkConnection_0b011_counterexample :
    Call.setAirplaneMode true ∈
      (setNetworkConnection false 0b011 ⟨false, false, true, false⟩).1 ∧
    (setNetworkConnection false 0b011 ⟨false, false, true, false⟩).2.1 = 0b001 := by
  decide

/-- C3 amended: the behaviour the example describes belongs to the bitmask
`0b010` (Wi-Fi on, data off, airplane off under bit0=airplaneMode, bit1=wifi,
bit2=data).  `setNetworkConnection(0b010)` on a device in state `0b100`
issues exactly an enable-Wi-Fi and a disable-data call (inside the
disconnect-safe wrapper), touches airplane mode in no way, and returns the
final bitmask `0b010` — for either bootstrap configuration and any API
level. -/
theorem setNetworkConnection_0b010_from_0b100 (hb apiLt30 : Bool) :
    setNetworkConnection hb 0b010 ⟨false, false, true, apiLt30⟩ =
      ([Call.isAirplaneModeOn, Call.isWifiOn, Call.isDataOn] ++
        wrapTrace hb [Call.setWifiState true, Call.setDataState false] ++
        [Call.isAirplaneModeOn, Call.isWifiOn, Call.isDataOn],
       0b010, ⟨false, true, false, apiLt30⟩) := by
  cases hb <;> cases apiLt30 <;> rfl

/-- C8: whenever the read-back performed by `setGeoLocation` after a
successful device-bridge write throws, the command does not throw (its return
type is total): it returns the location with all three coordinates equal to
`GEO_EPSILON`, which is the positive value `2 ^ (-1074)` — `Number.MIN_VALUE`,
the smallest positive representable binary64 value. -/
theorem setGeoLocation_readback_failure (location : GeoLocation) (e : JsError) :
    setGeoLocation location (Except.error e) =
      { latitude := GEO_EPSILON, longitude := GEO_EPSILON, altitude := GEO_EPSILON } ∧
    0 < GEO_EPSILON ∧ GEO_EPSILON = 1 / 2 ^ 1074 :=
  ⟨rfl, by norm_num [GEO_EPSILON], rfl⟩

/-- C4: for every call to `setNetworkConnection(type)` in which the
airplane-mode bit of `type` is set, no data-state write is ever issued during
that call — `setDataState` (with either argument) never appears in the trace,
whatever the bootstrap configuration and initial device state. -/
theorem setNetworkConnection_airplane_suppresses_data (hb : Bool) (type : Nat)
    (s0 : DeviceState) (h : type &&& AIRPLANE_MODE_MASK ≠ 0) (b : Bool) :
    Call.setDataState b ∉ (setNetworkConnection hb type s0).1 := by
  have ha : (type &&& AIRPLANE_MODE_MASK != 0) = true := by
    simpa [bne_iff_ne] using h
  show Call.setDataState b ∉
    (setNetworkConnectionCore hb (type &&& AIRPLANE_MODE_MASK != 0)
      (type &&& WIFI_MASK != 0) (type &&& DATA_MASK != 0) s0).1
  rw [ha]
  obtain ⟨A0, W0, D0, L0⟩ := s0
  revert hb b A0 W0 D0 L0
  generalize (type &&& WIFI_MASK != 0) = w
  generalize (type &&& DATA_MASK != 0) = d
  revert w d
  decide

/-- C4 witness: concrete instance — `setNetworkConnection(0b111)` with a
bootstrap attached, on a device with Wi-Fi and data on and API level below
30, issues no `setDataState(false)` call. -/
theorem setNetworkConnection_airplane_suppresses_data_witness :
    (0b111 : Nat) &&& AIRPLANE_MODE_MASK ≠ 0 ∧
    Call.setDataState false ∉ (setNetworkConnection true 0b111 ⟨false, true, true, true⟩).1 :=
  ⟨by decide,
   setNetworkConnection_airplane_suppresses_data true 0b111 ⟨false, true, true, true⟩
     (by decide) false⟩

/-- C5 counterexample: `setNetworkConnection(0b111)` on a device in state
`0b110` (Wi-Fi and data on, airplane off) is not idempotent.  The first call
returns `0b111`, but the immediately repeated call returns `0b001` — a
different final bitmask — and still issues a (redundant) `setWifiState(true)`
write, because with airplane mode on the state read of the second call masks
the Wi-Fi bit. -/
theorem setNetworkConnection_idempotence_counterexample :
    (setNetworkConnection false 0b111 ⟨false, true, true, false⟩).2.1 = 0b111 ∧
    (setNetworkConnection false 0b111
        (setNetworkConnection false 0b111 ⟨false, true, true, false⟩).2.2).2.1 = 0b001 ∧
    Call.setWifiState true ∈
      (setNetworkConnection false 0b111
        (setNetworkConnection false 0b111 ⟨false, true, true, false⟩).2.2).1 := by
  decide

/-- C5 amended: `setNetworkConnection` is idempotent for every bitmask whose
airplane bit is clear, when called on a device whose airplane mode is off:
repeating the call with no external state change in between yields the same
final bitmask, and the second call issues no state-changing device-bridge
write (no `setAirplaneMode`, `setWifiState`, `setDataState` or
`broadcastAirplaneMode`).  When the airplane bit is set the second call can
both return a different bitmask and issue a redundant Wi-Fi write, as the
counterexample shows, because airplane mode masks the Wi-Fi/data bits of the
state read. -/
theorem setNetworkConnection_idempotent_amended (hb : Bool) (type : Nat)
    (s0 : DeviceState) (hA : type &&& AIRPLANE_MODE_MASK = 0)
    (h0 : s0.airplaneMode = false) :
    (setNetworkConnection hb type (setNetworkConnection hb type s0).2.2).2.1 =
      (setNetworkConnection hb type s0).2.1 ∧
    ∀ c ∈ (setNetworkConnection hb type (setNetworkConnection hb type s0).2.2).1,
      isStateWrite c = false := by
  have ha : (type &&& AIRPLANE_MODE_MASK != 0) = false := by
    simp [hA]
  simp only [setNetworkConnection, ha]
  obtain ⟨A0, W0, D0, L0⟩ := s0
  simp only at h0
  subst h0
  revert hb W0 D0 L0
  generalize (type &&& WIFI_MASK != 0) = w
  generalize (type &&& DATA_MASK != 0) = d
  revert w d
  decide

/-- C5 amended witness: concrete instance at bitmask `0b110` on a device with
everything off: the repeated call returns the same bitmask and issues no
state-changing write. -/
theorem setNetworkConnection_idempotent_amended_witness :
    (0b110 : Nat) &&& AIRPLANE_MODE_MASK = 0 ∧
    ((setNetworkConnection false 0b110
        (setNetworkConnection false 0b110 ⟨false, false, false, false⟩).2.2).2.1 =
      (setNetworkConnection false 0b110 ⟨false, false, false, false⟩).2.1 ∧
     ∀ c ∈ (setNetworkConnection false 0b110
        (setNetworkConnection false 0b110 ⟨false, false, false, false⟩).2.2).1,
      isStateWrite c = false) :=
  ⟨by decide,
   setNetworkConnection_idempotent_amended false 0b110 ⟨false, false, false, false⟩
     (by decide) rfl⟩

/-- Helper: `parseFloat(v) || GEO_EPSILON` yields the fallback on the two
falsy outcomes, a failed parse and a parse result of zero. -/
theorem jsFloatOr_falsy (v : Option ℚ) (f : ℚ) (h : v = none ∨ v = some 0) :
    jsFloatOr v f = f := by
  rcases h with rfl | rfl <;> simp [jsFloatOr]

/-- Helper: `parseFloat(v) || GEO_EPSILON` passes a nonzero parse result
through unchanged. -/
theorem jsFloatOr_of_ne_zero (q f : ℚ) (h : q ≠ 0) : jsFloatOr (some q) f = q := by
  simp [jsFloatOr, h]

/-- C7 counterexample: a coordinate that parses as the number `0` is NOT
returned as zero — `getGeoLocation` substitutes the epsilon sentinel for it
(JavaScript `0` is falsy in `parseFloat(v) || GEO_EPSILON`), so an
actually-zero coordinate is indistinguishable from the unknown sentinel.
Here latitude parses as `0` yet the returned latitude is the positive
`GEO_EPSILON`. -/
theorem getGeoLocation_zero_counterexample :
    (getGeoLocation ⟨some 0, some 1, some 1⟩).latitude = GEO_EPSILON ∧
    0 < GEO_EPSILON := by
  constructor
  · simp [getGeoLocation, jsFloatOr]
  · norm_num [GEO_EPSILON]

/-- C7 amended: `getGeoLocation` substitutes `GEO_EPSILON` exactly for those
coordinate values that fail to parse as a number OR parse as zero (both are
falsy in JavaScript), and returns every nonzero parsed value unchanged.  An
actually-zero coordinate is deliberately mapped to the sentinel as well, so
that the value serialises as a float rather than the integer `0`. -/
theorem getGeoLocation_epsilon_amended (raw : RawGeoLocation) :
    ((raw.latitude = none ∨ raw.latitude = some 0) →
      (getGeoLocation raw).latitude = GEO_EPSILON) ∧
    (∀ q : ℚ, raw.latitude = some q → q ≠ 0 → (getGeoLocation raw).latitude = q) ∧
    ((raw.longitude = none ∨ raw.longitude = some 0) →
      (getGeoLocation raw).longitude = GEO_EPSILON) ∧
    (∀ q : ℚ, raw.longitude = some q → q ≠ 0 → (getGeoLocation raw).longitude = q) ∧
    ((raw.altitude = none ∨ raw.altitude = some 0) →
      (getGeoLocation raw).altitude = GEO_EPSILON) ∧
    (∀ q : ℚ, raw.altitude = some q → q ≠ 0 → (getGeoLocation raw).altitude = q) := by
  refine ⟨fun h => ?_, fun q hq hnz => ?_, fun h => ?_, fun q hq hnz => ?_,
    fun h => ?_, fun q hq hnz => ?_⟩ <;>
    simp only [getGeoLocation]
  · exact jsFloatOr_falsy _ _ h
  · rw [hq]; exact jsFloatOr_of_ne_zero q _ hnz
  · exact jsFloatOr_falsy _ _ h
  · rw [hq]; exact jsFloatOr_of_ne_zero q _ hnz
  · exact jsFloatOr_falsy _ _ h
  · rw [hq]; exact jsFloatOr_of_ne_zero q _ hnz

/-- C7 amended witness: concrete instance — an unparsable latitude and a zero
longitude both come back as `GEO_EPSILON` while the altitude `5` passes
through unchanged. -/
theorem getGeoLocation_epsilon_amended_witness :
    (getGeoLocation ⟨none, some 0, some 5⟩).latitude = GEO_EPSILON ∧
    (getGeoLocation ⟨none, some 0, some 5⟩).longitude = GEO_EPSILON ∧
    (getGeoLocation ⟨none, some 0, some 5⟩).altitude = 5 :=
  ⟨(getGeoLocation_epsilon_amended ⟨none, some 0, some 5⟩).1 (Or.inl rfl),
   (getGeoLocation_epsilon_amended ⟨none, some 0, some 5⟩).2.2.1 (Or.inr rfl),
   (getGeoLocation_epsilon_amended ⟨none, some 0, some 5⟩).2.2.2.2.2 5 rfl (by norm_num)⟩

/-- C9: while a bootstrap handle is attached, `wrapBootstrapDisconnect` sets
the bootstrap's ignore-shutdown flag to true immediately before running the
action and has reset it to false by the time it completes, whether the action
and the subsequent restarts succeed or any of them throws — in which case the
first error still propagates to the caller.  Without a bootstrap the flag is
never touched and only the action runs, its outcome propagating unchanged. -/
theorem wrapBootstrapDisconnect_flag_discipline (hb flag0 : Bool)
    (aE rE sE : Option JsError) :
    (hb = true →
      (wrapBootstrapDisconnect hb flag0 aE rE sE).events.take 2 =
        [WrapEv.flagAssign true, WrapEv.actionRun] ∧
      (wrapBootstrapDisconnect hb flag0 aE rE sE).events.getLast? =
        some (WrapEv.flagAssign false) ∧
      (wrapBootstrapDisconnect hb flag0 aE rE sE).flagAfter = false ∧
      (wrapBootstrapDisconnect hb flag0 aE rE sE).thrown = (aE <|> rE <|> sE)) ∧
    (hb = false →
      (wrapBootstrapDisconnect hb flag0 aE rE sE).events = [WrapEv.actionRun] ∧
      (wrapBootstrapDisconnect hb flag0 aE rE sE).flagAfter = flag0 ∧
      (wrapBootstrapDisconnect hb flag0 aE rE sE).thrown = aE) ∧
    WrapEv.actionRun ∈ (wrapBootstrapDisconnect hb flag0 aE rE sE).events := by
  cases hb <;> cases aE <;> cases rE <;> cases sE <;>
    simp [wrapBootstrapDisconnect]

/-- C9 witness: concrete instance — with a bootstrap attached and an action
that throws, the flag is set around the action, ends up false, and the
action's error is the one propagated. -/
theorem wrapBootstrapDisconnect_flag_discipline_witness :
    (wrapBootstrapDisconnect true false (some JsError.typeError) none none).events.take 2 =
      [WrapEv.flagAssign true, WrapEv.actionRun] ∧
    (wrapBootstrapDisconnect true false (some JsError.typeError) none none).flagAfter = false ∧
    (wrapBootstrapDisconnect true false (some JsError.typeError) none none).thrown =
      some JsError.typeError := by
  have h := wrapBootstrapDisconnect_flag_discipline true false (some JsError.typeError) none none
  exact ⟨(h.1 rfl).1, (h.1 rfl).2.2.1, (h.1 rfl).2.2.2⟩

/-- Helper: `readPromiseValue` only ever throws the TypeError that comes from
calling `.value()` on a missing `statePromises` entry. -/
theorem readPromiseValue_error_eq (services : List String) (s : DeviceState)
    (k : String) (e : JsError) (h : readPromiseValue services s k = Except.error e) :
    e = JsError.typeError := by
  unfold readPromiseValue at h
  cases hm : statePromisesMap services s k <;> rw [hm] at h
  · exact (Except.error.inj h).symm
  · exact Except.noConfusion h

/-- Helper: the result-building loop of `mobileGetConnectivity` throws a
TypeError whenever any requested name has no `statePromises` entry. -/
theorem collectConnectivityPairs_error (services : List String) (s : DeviceState)
    (l : List String) (k : String) (hk : k ∈ l)
    (hnone : statePromisesMap services s k = none) :
    collectConnectivityPairs services s l = Except.error JsError.typeError := by
  induction l with
  | nil => cases hk
  | cons x t ih =>
    rcases List.mem_cons.mp hk with rfl | hkt
    · simp [collectConnectivityPairs, readPromiseValue, hnone]
    · cases hfx : readPromiseValue services s x with
      | error e =>
        have he := readPromiseValue_error_eq services s x e hfx
        simp [collectConnectivityPairs, hfx, he]
      | ok p =>
        simp [collectConnectivityPairs, hfx, ih hkt]

/-- C10: every `services` argument to `mobileGetConnectivity` containing a
name outside wifi/data/airplaneMode makes the call fail with an error rather
than silently ignoring the unknown name or returning a partial result: the
lookup of the unrecognised name in `statePromises` yields no promise object,
and reading `.value()` of it throws. -/
theorem mobileGetConnectivity_unknown_service_errors (names : List String)
    (s : DeviceState) (k : String) (hk : k ∈ names)
    (h1 : k ≠ WIFI_KEY_NAME) (h2 : k ≠ DATA_KEY_NAME) (h3 : k ≠ AIRPLANE_MODE_KEY_NAME) :
    (mobileGetConnectivity (ServicesArg.list names) s).2 =
      Except.error JsError.typeError := by
  have hnone : statePromisesMap names s k = none := by
    simp [statePromisesMap, h1, h2, h3]
  simpa [mobileGetConnectivity, normalizeServices] using
    collectConnectivityPairs_error names s names k hk hnone

/-- C10 witness: concrete instance — requesting the unknown service name
"bluetooth" makes the call throw a TypeError. -/
theorem mobileGetConnectivity_unknown_service_errors_witness :
    (mobileGetConnectivity (ServicesArg.list ["bluetooth"]) ⟨false, false, false, false⟩).2 =
      Except.error JsError.typeError :=
  mobileGetConnectivity_unknown_service_errors ["bluetooth"] ⟨false, false, false, false⟩
    "bluetooth" (by simp) (by decide) (by decide) (by decide)

end NetworkCommands
